import Mathlib

/-!
Verification of the Discord spam-remover pipeline (`src/main.py`).

The Python program is shallowly embedded: pure helpers (`check_if_possible_spam`,
`account_age_days`, `member_join_age_days`, the regexes, the classifier response
parsing) become Lean functions over `String`/`Nat`; the stateful `on_message`
event handler becomes a pure state-transition function over an explicit
`BotState`, parameterised by an `Env` describing the outcomes of the external
effects (heuristic exception, Discord API permission errors, OpenAI response).
Platform side effects are recorded in an output trace of `Effect`s.
-/

namespace SpamRemover

/-! ## Character and string helpers (Python semantics, ASCII fragment) -/

/-- Python `\s` / `str.strip` whitespace set (ASCII fragment). -/
def pyIsSpace (c : Char) : Bool :=
  c == ' ' || c == '\t' || c == '\n' || c == '\r' || c == '\x0b' || c == '\x0c'

/-- Python regex `\w` word character (ASCII fragment): `[a-zA-Z0-9_]`. -/
def isWordChar (c : Char) : Bool :=
  ('a' ≤ c && c ≤ 'z') || ('A' ≤ c && c ≤ 'Z') || ('0' ≤ c && c ≤ '9') || c == '_'

/-- Case-insensitive character comparison, models the `re.I` flag
(harmless on the scam patterns, which are matched against a lowered string). -/
def chEqCI (a b : Char) : Bool := a.toLower == b.toLower

/-- Is `sub` a contiguous infix of `l`? (helper for Python `in`). -/
def infixOfList (sub : List Char) : List Char → Bool
  | [] => sub.isEmpty
  | c :: rest => sub.isPrefixOf (c :: rest) || infixOfList sub rest

/-- Python `'sub' in s` substring containment. -/
def containsSubstr (s sub : String) : Bool := infixOfList sub.data s.data

/-- Python `str.lower()` (ASCII fragment). -/
def pyLower (s : String) : String := ⟨s.data.map Char.toLower⟩

/-- Python `str.upper()` (ASCII fragment). -/
def pyUpper (s : String) : String := ⟨s.data.map Char.toUpper⟩

/-- Python `str.strip()`: drop leading and trailing whitespace. -/
def pyStrip (s : String) : String :=
  ⟨((s.data.dropWhile pyIsSpace).reverse.dropWhile pyIsSpace).reverse⟩

/-! ## Tiny regex engine

Just large enough for the two regexes of `main.py`:
`LINK_RE = (https?://\S+|discord\.gg/\S+|t\.me/\S+)` with `re.I`, and the
`scam_patterns` list (word boundaries `\b`, literals, an optional letter
`giving?`, and whitespace runs `\s+`). -/

/-- One regex token of the fragment used by `main.py`. -/
inductive Tok
  /-- a literal character -/
  | lit (c : Char)
  /-- an optional literal character (`s?`, `g?`) -/
  | opt (c : Char)
  /-- `\s+` : one or more whitespace characters -/
  | wsp
  /-- `\S+` : one or more non-whitespace characters -/
  | nsp
  /-- `\b` : word boundary -/
  | wb
deriving DecidableEq

/-- `\b` holds when exactly one side of the position is a word character
(string edges count as non-word). `prev` is the character before the
position, `next` the rest of the input. -/
def atBoundary (prev : Option Char) (next : List Char) : Bool :=
  let pw := match prev with | none => false | some c => isWordChar c
  let nw := match next with | [] => false | c :: _ => isWordChar c
  pw != nw

/-- Backtracking matcher for a token list at the current position.
`mode = some p` means we are inside a one-or-more class `p` that has already
consumed at least one character and may consume more before continuing.
The `fuel` argument only forces structural recursion; every step strictly
decreases `cs.length * (ts.length + 2) + ts.length + (mode cost)`, so the
fuel supplied by `matchToks` below can never run out. -/
def matchF : Nat → Option (Char → Bool) → List Tok → Option Char → List Char → Bool
  | 0, _, _, _, _ => false
  | f + 1, some p, ts, prev, cs =>
      matchF f none ts prev cs ||
      (match cs with
       | c :: cs2 => p c && matchF f (some p) ts (some c) cs2
       | [] => false)
  | f + 1, none, ts, prev, cs =>
      match ts with
      | [] => true
      | .lit c :: ts2 =>
          (match cs with
           | d :: cs2 => chEqCI d c && matchF f none ts2 (some d) cs2
           | [] => false)
      | .opt c :: ts2 =>
          (match cs with
           | d :: cs2 =>
               (chEqCI d c && matchF f none ts2 (some d) cs2) ||
               matchF f none ts2 prev (d :: cs2)
           | [] => matchF f none ts2 prev [])
      | .wsp :: ts2 =>
          (match cs with
           | d :: cs2 => pyIsSpace d && matchF f (some pyIsSpace) ts2 (some d) cs2
           | [] => false)
      | .nsp :: ts2 =>
          (match cs with
           | d :: cs2 => !pyIsSpace d && matchF f (some fun c => !pyIsSpace c) ts2 (some d) cs2
           | [] => false)
      | .wb :: ts2 => atBoundary prev cs && matchF f none ts2 prev cs

/-- Match the token list `ts` exactly at the current position (prefix match),
with enough fuel for any run (see `matchF`). -/
def matchToks (ts : List Tok) (prev : Option Char) (cs : List Char) : Bool :=
  matchF ((cs.length + 1) * (ts.length + 2) + ts.length + 2) none ts prev cs

/-- Python `re.search`: try a match at every position of the input. -/
def searchToks (ts : List Tok) : Option Char → List Char → Bool
  | prev, cs =>
      matchToks ts prev cs ||
      match cs with
      | [] => false
      | c :: cs2 => searchToks ts (some c) cs2

/-- `re.search(pattern, s)` as a Bool. -/
def reSearch (ts : List Tok) (s : String) : Bool := searchToks ts none s.data

/-- Literal characters of a string as regex tokens. -/
def lits (s : String) : List Tok := s.data.map Tok.lit

/-- `LINK_RE = re.compile(r'(https?://\S+|discord\.gg/\S+|t\.me/\S+)', re.I)`,
as the list of its three alternatives. -/
def LINK_RE : List (List Tok) :=
  [ lits "http" ++ [.opt 's'] ++ lits "://" ++ [.nsp],
    lits "discord.gg/" ++ [.nsp],
    lits "t.me/" ++ [.nsp] ]

/-- `LINK_RE.search(content)` as a Bool. -/
def LINK_RE_search (s : String) : Bool := LINK_RE.any (fun p => reSearch p s)

/-- The `scam_patterns` list of `check_if_possible_spam`, in source order. -/
def scam_patterns : List (List Tok) :=
  [ [.wb] ++ lits "dm" ++ [.wb],
    [.wb] ++ lits "givin" ++ [.opt 'g', .wsp] ++ lits "out" ++ [.wb],
    [.wb] ++ lits "free" ++ [.wb],
    [.wb] ++ lits "giveaway" ++ [.wb],
    [.wb] ++ lits "loan" ++ [.wb],
    [.wb] ++ lits "grant" ++ [.wb],
    [.wb] ++ lits "cashapp" ++ [.wb],
    [.wb] ++ lits "venmo" ++ [.wb],
    [.wb] ++ lits "crypto" ++ [.wb],
    [.wb] ++ lits "airdrop" ++ [.wb],
    [.wb] ++ lits "investment" ++ [.wb],
    [.wb] ++ lits "quick" ++ [.wsp] ++ lits "money" ++ [.wb],
    [.wb] ++ lits "perfect" ++ [.wsp] ++ lits "condition" ++ [.wb],
    [.wb] ++ lits "limited" ++ [.wsp] ++ lits "time" ++ [.wb],
    [.wb] ++ lits "urgent" ++ [.wb],
    [.wb] ++ lits "first" ++ [.wsp] ++ lits "come" ++ [.wsp] ++ lits "first" ++ [.wsp] ++ lits "serve" ++ [.wb] ]

/-! ## Message model and the heuristic pre-filter -/

/-- The fields of `message.author` that the program reads.
`createdDaysAgo` models `(datetime.now() - member.created_at).days`;
`joinedDaysAgo = none` models "not a `discord.Member` or `joined_at is None`"
(for which `member_join_age_days` returns the 9999 sentinel);
`rolesCount` models `len(message.author.roles)`. -/
structure Author where
  id : Nat
  isBot : Bool
  rolesCount : Nat
  createdDaysAgo : Nat
  joinedDaysAgo : Option Nat
deriving DecidableEq

/-- The fields of a Discord `message` that the pipeline reads. -/
structure Msg where
  author : Author
  content : String
deriving DecidableEq

/-- `account_age_days(member)`. -/
def account_age_days (a : Author) : Nat := a.createdDaysAgo

/-- `member_join_age_days(member)`: 9999 when the author is not a full member
or has no join timestamp. -/
def member_join_age_days (a : Author) : Nat := a.joinedDaysAgo.getD 9999

/-- `check_if_possible_spam(message)`: the heuristic pre-filter, translated
clause by clause from `main.py` (decision order preserved). -/
def check_if_possible_spam (m : Msg) : Bool :=
  let content := m.content
  let lower := pyLower content
  -- if len(content) < 20: return False
  if content.length < 20 then false
  -- if '@everyone' in content or '@here' in content: ...
  else if containsSubstr content "@everyone" || containsSubstr content "@here" then
    if m.author.rolesCount > 2 then false else true
  -- if LINK_RE.search(content): return True
  else if LINK_RE_search content then true
  -- if account_age_days(message.author) < 7: return True
  else if account_age_days m.author < 7 then true
  -- if member_join_age_days(message.author) < 7: return True
  else if member_join_age_days m.author < 7 then true
  -- if any(re.search(pattern, lower) for pattern in scam_patterns): return True
  else if scam_patterns.any (fun p => reSearch p lower) then true
  else false

/-! ## Semantic classifier adapter (`is_spam`) -/

/-- Outcome of the single OpenAI chat-completion call inside `is_spam`.
`success content` carries `resp.choices[0].message.content` (possibly `None`);
`rateLimitError` models `openai.RateLimitError`; `otherError` any other
exception reaching the generic handler. -/
inductive ApiResult
  | success (content : Option String)
  | rateLimitError
  | otherError
deriving DecidableEq

/-- Log level emitted by `is_spam` on each branch (`logging.info` /
`logging.warning` / `logging.error`). -/
inductive LogEvent
  | info
  | warning
  | error
deriving DecidableEq

/-- `is_spam(message_content)`: parse `(content or "").strip().upper()` and
compare to `"SPAM"`; fail open (return `false`) on `RateLimitError` with a
warning log and on any other exception with an error log. Returns the verdict
together with the log line the branch writes. -/
def is_spam (r : ApiResult) : Bool × List LogEvent :=
  match r with
  | .success content =>
      let result := pyUpper (pyStrip (content.getD ""))
      (result == "SPAM", [.info])
  | .rateLimitError => (false, [.warning])
  | .otherError => (false, [.error])

/-! ## Metrics -/

/-- The metrics record (`metrics_data`); `start_date` is an inert string and
is omitted. -/
structure Metrics where
  total_messages : Nat
  filtered_locally : Nat
  sent_to_api : Nat
  spam_detected : Nat
deriving DecidableEq

/-- Zero-initialised metrics, as `load_metrics` returns when the file is
absent. -/
def initMetrics : Metrics := ⟨0, 0, 0, 0⟩

/-- What `print_metrics` writes (when it writes anything): the counters and
the `API cost reduction` percentage, computed as
`(filtered_locally / total_messages) * 100`. -/
structure MetricsReport where
  total_messages : Nat
  filtered_locally : Nat
  api_calls : Nat
  spam_detected : Nat
  reduction : Rat
deriving DecidableEq

/-- `print_metrics()`: prints the report only under the `total_messages > 0`
guard; otherwise prints nothing (`none`). -/
def print_metrics (m : Metrics) : Option MetricsReport :=
  if m.total_messages > 0 then
    some ⟨m.total_messages, m.filtered_locally, m.sent_to_api, m.spam_detected,
          ((m.filtered_locally : Rat) / (m.total_messages : Rat)) * 100⟩
  else none

/-- The reply the `!metrics` command sends: an embed with the report, or a
plain text message. -/
inductive CommandReply
  | embed (r : MetricsReport)
  | text (s : String)
deriving DecidableEq

/-- `show_metrics(ctx)`: sends the embed only under the `total_messages > 0`
guard; otherwise replies "No messages processed yet". -/
def show_metrics (m : Metrics) : CommandReply :=
  if m.total_messages > 0 then
    .embed ⟨m.total_messages, m.filtered_locally, m.sent_to_api, m.spam_detected,
            ((m.filtered_locally : Rat) / (m.total_messages : Rat)) * 100⟩
  else .text "No messages processed yet"

/-! ## The `on_message` pipeline -/

/-- `MAX_SUS_MESSAGES = 5`. -/
def MAX_SUS_MESSAGES : Nat := 5

/-- `TIME_WINDOW = 60` seconds. -/
def TIME_WINDOW : Nat := 60

/-- `TIMEOUT_DURATION = timedelta(minutes=10)`, in minutes. -/
def TIMEOUT_DURATION_MIN : Nat := 10

/-- Outcome of one awaited Discord API call: success, `discord.errors.Forbidden`
(insufficient permissions), or any other exception. -/
inductive ActionOutcome
  | ok
  | forbidden
  | otherError
deriving DecidableEq

/-- Which `channel.send` text a send effect carries. -/
inductive SendKind
  /-- "You have been timed out for ... minutes ..." (rate-limit branch) -/
  | rateLimitNotice
  /-- "Your message was removed as spam. Further violations ..." (first offense) -/
  | firstOffenseWarning
  /-- "Your message was flagged as spam." (the `Forbidden` fallback of the
  confirmed-spam branch) -/
  | flaggedFallback
deriving DecidableEq

/-- A platform side effect attempted by `on_message`, in attempt order.
Failed attempts are recorded too (the call was made). -/
inductive Effect
  | timeoutUser (minutes : Nat)
  | channelSend (kind : SendKind)
  | deleteMessage
  /-- a `message_logger.info("SPAM DETECTED | ...")` audit line -/
  | auditLog
  /-- the `logging.exception` line of the heuristic catch-all -/
  | logHeuristicError
  /-- a `save_metrics(metrics_data)` file write -/
  | saveMetrics
  /-- the awaited OpenAI call inside `is_spam` -/
  | classifierCall
deriving DecidableEq

/-- Environment of one `on_message` run: outcomes of the external effects.
`now` is the timestamp (in seconds) used for the two `datetime.now()` calls
around the abuse window (append, then prune). -/
structure Env where
  /-- does `check_if_possible_spam` raise? -/
  heuristicRaises : Bool
  /-- outcome of `message.author.timeout` in the rate-limit branch -/
  rlTimeout : ActionOutcome
  /-- outcome of `message.channel.send` in the rate-limit branch -/
  rlSend : ActionOutcome
  /-- outcome of `message.delete` in the rate-limit branch -/
  rlDelete : ActionOutcome
  /-- outcome of the OpenAI call -/
  classifier : ApiResult
  /-- outcome of `message.delete` in the confirmed-spam branch -/
  spamDelete : ActionOutcome
  /-- outcome of the notify step of the confirmed-spam branch
  (`channel.send` for a first offense, `author.timeout` afterwards) -/
  spamNotify : ActionOutcome
  now : Nat

/-- Process-lifetime mutable state: the metrics record, `user_spam_attempts`
(defaultdict of timestamp lists) and `user_spam_detected` (defaultdict of
counters), both keyed by `message.author.id`. -/
structure BotState where
  metrics : Metrics
  user_spam_attempts : Nat → List Nat
  user_spam_detected : Nat → Nat

/-- The startup state: zeroed metrics, empty defaultdicts. -/
def initState : BotState := ⟨initMetrics, fun _ => [], fun _ => 0⟩

/-- Pointwise update of a defaultdict-like map. -/
def updAt {α : Type} (f : Nat → α) (u : Nat) (x : α) : Nat → α :=
  fun v => if v = u then x else f v

/-- The `try:` block of the rate-limit branch: `author.timeout`,
`channel.send`, `message_logger.info`, `message.delete`, in source order.
Returns the attempted effects (a failed call is still an attempt) and
whether the whole block succeeded; on failure (either `except` arm merely
prints) control falls through to the classifier section. -/
def ratePunishEffects (env : Env) : List Effect × Bool :=
  match env.rlTimeout with
  | .ok =>
      match env.rlSend with
      | .ok =>
          match env.rlDelete with
          | .ok => ([.timeoutUser TIMEOUT_DURATION_MIN, .channelSend .rateLimitNotice,
                     .auditLog, .deleteMessage], true)
          | _ => ([.timeoutUser TIMEOUT_DURATION_MIN, .channelSend .rateLimitNotice,
                   .auditLog, .deleteMessage], false)
      | _ => ([.timeoutUser TIMEOUT_DURATION_MIN, .channelSend .rateLimitNotice], false)
  | _ => ([.timeoutUser TIMEOUT_DURATION_MIN], false)

/-- The punishment the confirmed-spam branch applies for the `k`-th confirmed
offense: a warning message for `k = 1`, else a timeout of `10 * k` minutes
(`timeout_mins = 10 * user_spam_detected[user_id]`). -/
def punishment_for (k : Nat) : Effect :=
  if k = 1 then .channelSend .firstOffenseWarning else .timeoutUser (10 * k)

/-- The `try:` block of the confirmed-spam branch (`message_logger.info`,
`message.delete`, then warn-or-timeout), with its two `except` arms: on
`Forbidden` the handler prints and attempts the fallback
`channel.send("... flagged as spam.")`; on any other exception it only
prints. `k` is the just-incremented `user_spam_detected[user_id]`. -/
def spamPunishEffects (k : Nat) (env : Env) : List Effect :=
  match env.spamDelete with
  | .forbidden => [.auditLog, .deleteMessage, .channelSend .flaggedFallback]
  | .otherError => [.auditLog, .deleteMessage]
  | .ok =>
      match env.spamNotify with
      | .ok => [.auditLog, .deleteMessage, punishment_for k]
      | .forbidden => [.auditLog, .deleteMessage, punishment_for k, .channelSend .flaggedFallback]
      | .otherError => [.auditLog, .deleteMessage, punishment_for k]

/-- `metrics_data['sent_to_api'] += 1`. -/
def bumpSent (s : BotState) : BotState :=
  { s with metrics := { s.metrics with sent_to_api := s.metrics.sent_to_api + 1 } }

/-- The mutations of a confirmed-spam verdict:
`metrics_data['spam_detected'] += 1` and `user_spam_detected[user_id] += 1`. -/
def spamState (s : BotState) (uid : Nat) : BotState :=
  { s with
    metrics := { s.metrics with spam_detected := s.metrics.spam_detected + 1 },
    user_spam_detected := updAt s.user_spam_detected uid (s.user_spam_detected uid + 1) }

/-- The tail of `on_message` from `metrics_data['sent_to_api'] += 1` on:
save metrics, call `is_spam`, and on a spam verdict bump `spam_detected`
and `user_spam_detected[user_id]`, save again, and run the punish block
(`pre` is the trace accumulated so far). -/
def apiPhase (s : BotState) (m : Msg) (env : Env) (pre : List Effect) :
    BotState × List Effect :=
  if (is_spam env.classifier).1 then
    (spamState (bumpSent s) m.author.id,
     pre ++ [.saveMetrics, .classifierCall, .saveMetrics]
       ++ spamPunishEffects
            ((spamState (bumpSent s) m.author.id).user_spam_detected m.author.id) env)
  else
    (bumpSent s, pre ++ [.saveMetrics, .classifierCall])

/-- The pruned sliding window after appending `env.now`:
`user_spam_attempts[user_id]` gets the current timestamp appended and then
entries with `now - t < TIME_WINDOW` kept. -/
def prunedOf (s0 : BotState) (m : Msg) (env : Env) : List Nat :=
  (s0.user_spam_attempts m.author.id ++ [env.now]).filter
    (fun t => env.now - t < TIME_WINDOW)

/-- The `logging.exception` trace of the heuristic catch-all. -/
def heurLog (env : Env) : List Effect :=
  if env.heuristicRaises then [.logHeuristicError] else []

/-- The suspicious side of `on_message`, once the window of `s1` has been
updated to `pruned`: rate-limit punish (and clear the window) when the
count reaches `MAX_SUS_MESSAGES` and the punish block succeeds; on a punish
failure fall through to the classifier section, as the source's `except`
arms do; below the threshold go straight to the classifier section. -/
def suspiciousWith (s1 : BotState) (m : Msg) (env : Env) (log : List Effect)
    (pruned : List Nat) : BotState × List Effect :=
  if pruned.length ≥ MAX_SUS_MESSAGES then
    if (ratePunishEffects env).2 then
      ({ s1 with
          user_spam_attempts := updAt s1.user_spam_attempts m.author.id [],
          metrics := { s1.metrics with filtered_locally := s1.metrics.filtered_locally + 1 } },
       log ++ (ratePunishEffects env).1 ++ [.saveMetrics])
    else
      apiPhase s1 m env (log ++ (ratePunishEffects env).1)
  else
    apiPhase s1 m env log

/-- `on_message` after the bot check and `total_messages += 1`: evaluate the
guarded heuristic (`possibly_spam = False` when it raises) and branch. -/
def onMessageBody (s0 : BotState) (m : Msg) (env : Env) : BotState × List Effect :=
  if (if env.heuristicRaises then false else check_if_possible_spam m) then
    suspiciousWith
      { s0 with user_spam_attempts := updAt s0.user_spam_attempts m.author.id (prunedOf s0 m env) }
      m env (heurLog env) (prunedOf s0 m env)
  else
    ({ s0 with metrics := { s0.metrics with filtered_locally := s0.metrics.filtered_locally + 1 } },
     heurLog env ++ [.saveMetrics])

/-- `on_message(message)`: the whole event handler as a state transition,
returning the new state and the trace of attempted side effects.
Bot-authored messages return immediately. The heuristic call is wrapped in
`try`/`except`. The two `datetime.now()` calls of the window update are
modelled as the same instant `env.now`. -/
def on_message (s : BotState) (m : Msg) (env : Env) : BotState × List Effect :=
  if m.author.isBot then (s, [])
  else
    onMessageBody
      { s with metrics := { s.metrics with total_messages := s.metrics.total_messages + 1 } }
      m env

/-- Process a list of message events in order (the single-threaded event
loop), keeping only the state. -/
def processAll (s : BotState) (evs : List (Msg × Env)) : BotState :=
  evs.foldl (fun st ev => (on_message st ev.1 ev.2).1) s

/-! ## Concrete fixtures used by scenario theorems -/

/-- A long-standing, trusted author: 400-day-old account, joined 400 days
ago, 5 roles. -/
def oldAuthor : Author := ⟨7, false, 5, 400, some 400⟩

/-- A brand-new author (account created today, joined today, one role). -/
def newAuthor : Author := ⟨42, false, 1, 0, some 0⟩

/-- A message every pre-filter clause lets through except the new-account
rule: 24 characters, no mention, no link, no scam keyword. -/
def susMsg : Msg := ⟨newAuthor, "aaaaaaaaaaaaaaaaaaaaaaaa"⟩

/-- The end-to-end scenario message of the specification. -/
def weekendMsg : Msg := ⟨oldAuthor, "hey anyone free this weekend?"⟩

/-- An all-succeeding environment at time `t` whose classifier answers
`NOT_SPAM`. -/
def okEnv (t : Nat) : Env :=
  ⟨false, .ok, .ok, .ok, .success (some "NOT_SPAM"), .ok, .ok, t⟩

/-- An all-succeeding environment whose classifier answers `SPAM`. -/
def spamEnv : Env :=
  ⟨false, .ok, .ok, .ok, .success (some "SPAM"), .ok, .ok, 0⟩

/-- Is the effect a user timeout? -/
def isTimeoutEffect (e : Effect) : Bool :=
  match e with
  | .timeoutUser _ => true
  | _ => false

/-- Is the effect a channel message send? -/
def isSendEffect (e : Effect) : Bool :=
  match e with
  | .channelSend _ => true
  | _ => false

/-- Pointwise update at the updated key. -/
theorem updAt_same {α : Type} (f : Nat → α) (u : Nat) (x : α) : updAt f u x u = x := by
  simp [updAt]

/-! ## Claims -/

/-- C9: a message authored by the bot itself returns immediately: the state
(metrics, abuse tracker) is untouched and no effect — no metrics file write,
no classifier call, no platform action — is attempted. -/
theorem bot_messages_ignored (s : BotState) (m : Msg) (env : Env)
    (h : m.author.isBot = true) : on_message s m env = (s, []) := by
  simp [on_message, h]

/-- Witness for C9: a concrete bot-authored message leaves the start state
untouched with an empty trace. -/
theorem bot_messages_ignored_witness :
    on_message initState ⟨⟨1, true, 0, 0, none⟩, "spam spam spam spam spam"⟩ (okEnv 0)
      = (initState, []) :=
  bot_messages_ignored initState ⟨⟨1, true, 0, 0, none⟩, "spam spam spam spam spam"⟩ (okEnv 0) rfl

/-- C10: both metrics reports compute the filtered-locally percentage only
under the `total_messages > 0` guard, so its denominator is positive whenever
it is computed; with zero messages the command replies
"No messages processed yet" and `print_metrics` prints nothing. -/
theorem metrics_guard_division (m : Metrics) :
    (m.total_messages = 0 →
      print_metrics m = none ∧ show_metrics m = .text "No messages processed yet")
    ∧ (∀ r, print_metrics m = some r →
        0 < m.total_messages
        ∧ r.reduction = ((m.filtered_locally : Rat) / (m.total_messages : Rat)) * 100)
    ∧ (∀ r, show_metrics m = .embed r → 0 < m.total_messages) := by
  refine ⟨fun h0 => ?_, fun r hr => ?_, fun r hr => ?_⟩
  · simp [print_metrics, show_metrics, h0]
  · by_cases h : m.total_messages > 0
    · simp [print_metrics, h] at hr
      exact ⟨h, by rw [← hr]⟩
    · simp [print_metrics, h] at hr
  · by_cases h : m.total_messages > 0
    · exact h
    · simp [show_metrics, h] at hr

/-- Witness for C10: with zeroed metrics, nothing is printed and the command
replies with the plain-text notice. -/
theorem metrics_guard_division_witness :
    print_metrics initMetrics = none
    ∧ show_metrics initMetrics = .text "No messages processed yet" :=
  (metrics_guard_division initMetrics).1 rfl

/-- Counterexample for C2: a message whose content is exactly a t.me deep
link is matched by `LINK_RE`, yet `check_if_possible_spam` returns `false`
(not suspicious) because the 20-character minimum-length rule fires first —
the claim "any URL-like token implies suspicious" is false as stated. -/
theorem link_short_message_not_flagged :
    LINK_RE_search "t.me/join/abc" = true
    ∧ check_if_possible_spam ⟨oldAuthor, "t.me/join/abc"⟩ = false := by
  constructor
  · decide
  · decide

/-- C2 (amended): for every message long enough to pass the 20-character rule
and containing no broadcast mention (so the link rule is reached), a
`LINK_RE` match makes `check_if_possible_spam` return suspicious, for every
author — in particular regardless of account age. -/
theorem link_implies_suspicious (m : Msg)
    (hlen : 20 ≤ m.content.length)
    (he : containsSubstr m.content "@everyone" = false)
    (hh : containsSubstr m.content "@here" = false)
    (hlink : LINK_RE_search m.content = true) :
    check_if_possible_spam m = true := by
  simp [check_if_possible_spam, he, hh, hlink, Nat.not_lt.mpr hlen]

/-- Witness for C2 (amended): a 32-character link-bearing message from a
brand-new author is flagged. -/
theorem link_implies_suspicious_witness :
    check_if_possible_spam ⟨newAuthor, "see https://evil.example.com now"⟩ = true :=
  link_implies_suspicious ⟨newAuthor, "see https://evil.example.com now"⟩
    (by decide) (by decide) (by decide) (by decide)

/-- Counterexample for C3: the scenario message "hey anyone free this
weekend?" is 29 characters (not below the 20-character cutoff) and matches
the scam keyword `\bfree\b`, so the pre-filter returns `true` — not the
`false` the claim asserts — and the pipeline run calls the classifier
instead of taking the Clear path (`filtered_locally` stays 0). -/
theorem weekend_message_flagged :
    check_if_possible_spam weekendMsg = true
    ∧ (weekendMsg.content.length = 29)
    ∧ Effect.classifierCall ∈ (on_message initState weekendMsg (okEnv 0)).2
    ∧ (on_message initState weekendMsg (okEnv 0)).1.metrics.filtered_locally = 0 := by
  refine ⟨by decide, by decide, ?_, ?_⟩
  · decide
  · decide

/-- C3 (amended): for the message "hey anyone free this weekend?" from a
trusted, old account, the pre-filter returns suspicious (the keyword "free"
matches and the message is 29 characters long), and — with an empty abuse
window and a clean classifier verdict — the pipeline takes the
classifier path: `sent_to_api` is incremented, `filtered_locally` is not. -/
theorem weekend_message_goes_to_classifier :
    check_if_possible_spam weekendMsg = true
    ∧ (on_message initState weekendMsg (okEnv 0)).1.metrics
        = ⟨1, 0, 1, 0⟩
    ∧ Effect.classifierCall ∈ (on_message initState weekendMsg (okEnv 0)).2 := by
  refine ⟨by decide, ?_, by decide⟩
  decide

theorem count_cc_ratePunish (env : Env) :
    (ratePunishEffects env).1.count Effect.classifierCall = 0 := by
  unfold ratePunishEffects
  cases env.rlTimeout <;> cases env.rlSend <;> cases env.rlDelete <;> simp +decide

theorem count_cc_spamPunish (k : Nat) (env : Env) :
    (spamPunishEffects k env).count Effect.classifierCall = 0 := by
  unfold spamPunishEffects punishment_for
  cases env.spamDelete <;> cases env.spamNotify <;> split_ifs <;>
    simp +decide [List.count_cons, List.count_nil]

theorem count_cc_heurLog (env : Env) :
    (heurLog env).count Effect.classifierCall = 0 := by
  unfold heurLog
  split <;> simp +decide

theorem count_cc_apiPhase (s : BotState) (m : Msg) (env : Env) (pre : List Effect)
    (hpre : pre.count Effect.classifierCall = 0) :
    (apiPhase s m env pre).2.count Effect.classifierCall = 1 := by
  unfold apiPhase
  split <;> simp +decide [List.count_append, hpre, count_cc_spamPunish,
    List.count_cons, List.count_nil]

/-- The classifier is consulted at most once per message (never retried). -/
theorem count_cc_on_message (s : BotState) (m : Msg) (env : Env) :
    (on_message s m env).2.count Effect.classifierCall ≤ 1 := by
  unfold on_message onMessageBody suspiciousWith
  split_ifs <;>
    simp_all [count_cc_apiPhase, List.count_append, count_cc_ratePunish, count_cc_heurLog]

/-- C6: the classifier adapter answers spam exactly when the raw response,
stripped and uppercased, is the token "SPAM"; a provider rate limit fails
open (`false`) with a warning log, any other error fails open with an error
log; and within one message's handling the pipeline issues at most one
classifier call (no synchronous retry). -/
theorem is_spam_adapter_spec :
    (∀ raw : Option String,
      ((is_spam (.success raw)).1 = true ↔ pyUpper (pyStrip (raw.getD "")) = "SPAM"))
    ∧ is_spam .rateLimitError = (false, [.warning])
    ∧ is_spam .otherError = (false, [.error])
    ∧ (∀ (s : BotState) (m : Msg) (env : Env),
        (on_message s m env).2.count Effect.classifierCall ≤ 1) := by
  refine ⟨fun raw => ?_, rfl, rfl, count_cc_on_message⟩
  simp [is_spam]

/-- Witness for C6: the conjuncts with hypotheses instantiated concretely —
a response of `" spam \n"` (to be stripped and uppercased) counts as spam,
and the single-message run of the scenario message makes exactly at most one
classifier call. -/
theorem is_spam_adapter_spec_witness :
    ((is_spam (.success (some " spam \x0a"))).1 = true ↔
      pyUpper (pyStrip (" spam \x0a" : String)) = "SPAM")
    ∧ (on_message initState weekendMsg (okEnv 0)).2.count Effect.classifierCall ≤ 1 :=
  ⟨is_spam_adapter_spec.1 (some " spam \x0a"),
   is_spam_adapter_spec.2.2.2 initState weekendMsg (okEnv 0)⟩

/-- C7: when the heuristic raises, the orchestrator fails open locally: the
message counts as not-possibly-spam, `filtered_locally` is incremented, the
exception is logged, the abuse tracker is untouched, no classifier is called,
and processing of any subsequent messages continues from the updated state
exactly as usual. -/
theorem heuristic_exception_fails_open (s : BotState) (m : Msg) (env : Env)
    (hb : m.author.isBot = false) (hx : env.heuristicRaises = true) :
    (on_message s m env).1.metrics.total_messages = s.metrics.total_messages + 1
    ∧ (on_message s m env).1.metrics.filtered_locally = s.metrics.filtered_locally + 1
    ∧ (on_message s m env).1.metrics.sent_to_api = s.metrics.sent_to_api
    ∧ (on_message s m env).1.metrics.spam_detected = s.metrics.spam_detected
    ∧ (on_message s m env).1.user_spam_attempts = s.user_spam_attempts
    ∧ (on_message s m env).1.user_spam_detected = s.user_spam_detected
    ∧ (on_message s m env).2 = [.logHeuristicError, .saveMetrics]
    ∧ (∀ rest, processAll s ((m, env) :: rest) = processAll (on_message s m env).1 rest) := by
  refine ⟨?_, ?_, ?_, ?_, ?_, ?_, ?_, fun rest => rfl⟩ <;>
    simp [on_message, onMessageBody, heurLog, hb, hx]

/-- Witness for C7: a concrete faulting run on the scenario message. -/
theorem heuristic_exception_fails_open_witness :
    (on_message initState weekendMsg ⟨true, .ok, .ok, .ok, .success (some "NOT_SPAM"), .ok, .ok, 0⟩).1.metrics.filtered_locally
      = initState.metrics.filtered_locally + 1
    ∧ (on_message initState weekendMsg ⟨true, .ok, .ok, .ok, .success (some "NOT_SPAM"), .ok, .ok, 0⟩).2
      = [.logHeuristicError, .saveMetrics] :=
  ⟨(heuristic_exception_fails_open initState weekendMsg _ rfl rfl).2.1,
   (heuristic_exception_fails_open initState weekendMsg _ rfl rfl).2.2.2.2.2.2.1⟩

/-- Every non-bot message adds exactly one to `filtered_locally + sent_to_api`
and exactly one to `total_messages`, on every branch of the pipeline. -/
theorem on_message_metrics_step (s : BotState) (m : Msg) (env : Env)
    (h : m.author.isBot = false) :
    (on_message s m env).1.metrics.filtered_locally + (on_message s m env).1.metrics.sent_to_api
      = s.metrics.filtered_locally + s.metrics.sent_to_api + 1
    ∧ (on_message s m env).1.metrics.total_messages = s.metrics.total_messages + 1 := by
  unfold on_message onMessageBody suspiciousWith apiPhase bumpSent spamState
  simp only [h, Bool.false_eq_true, if_false]
  split_ifs <;> (try simp_all) <;> omega

theorem processAll_cons (s : BotState) (ev : Msg × Env) (evs : List (Msg × Env)) :
    processAll s (ev :: evs) = processAll (on_message s ev.1 ev.2).1 evs := rfl

theorem processAll_metrics (evs : List (Msg × Env)) :
    ∀ s : BotState, (∀ ev ∈ evs, ev.1.author.isBot = false) →
    (processAll s evs).metrics.filtered_locally + (processAll s evs).metrics.sent_to_api
      = s.metrics.filtered_locally + s.metrics.sent_to_api + evs.length
    ∧ (processAll s evs).metrics.total_messages = s.metrics.total_messages + evs.length := by
  induction evs with
  | nil => intro s _; simp [processAll]
  | cons ev evs ih =>
      intro s h
      obtain ⟨hs1, hs2⟩ := on_message_metrics_step s ev.1 ev.2 (h ev (by simp))
      obtain ⟨hr1, hr2⟩ := ih (on_message s ev.1 ev.2).1 (fun e he => h e (by simp [he]))
      rw [processAll_cons, List.length_cons]
      constructor
      · rw [hr1, hs1]; omega
      · rw [hr2, hs2]; omega

/-- C1: after processing any N non-bot messages from startup, the metrics
satisfy `filtered_locally + sent_to_api = total_messages = N`: every message
lands in exactly one of the two buckets exactly once, whatever terminal path
it takes. -/
theorem metrics_invariant (evs : List (Msg × Env))
    (h : ∀ ev ∈ evs, ev.1.author.isBot = false) :
    (processAll initState evs).metrics.filtered_locally
        + (processAll initState evs).metrics.sent_to_api
      = (processAll initState evs).metrics.total_messages
    ∧ (processAll initState evs).metrics.total_messages = evs.length := by
  obtain ⟨h1, h2⟩ := processAll_metrics evs initState h
  simp only [initState, initMetrics] at h1 h2 ⊢
  omega

/-- Witness for C1: two concrete messages (one Clear, one suspicious-confirmed
spam) leave `filtered_locally + sent_to_api = total_messages = 2`. -/
theorem metrics_invariant_witness :
    (processAll initState [(susMsg, okEnv 0), (weekendMsg, spamEnv)]).metrics.filtered_locally
        + (processAll initState [(susMsg, okEnv 0), (weekendMsg, spamEnv)]).metrics.sent_to_api
      = (processAll initState [(susMsg, okEnv 0), (weekendMsg, spamEnv)]).metrics.total_messages
    ∧ (processAll initState [(susMsg, okEnv 0), (weekendMsg, spamEnv)]).metrics.total_messages
      = [(susMsg, okEnv 0), (weekendMsg, spamEnv)].length :=
  metrics_invariant [(susMsg, okEnv 0), (weekendMsg, spamEnv)] (by decide)

/-- Counterexample for C4: on a user's first confirmed-spam verdict the code
sends only the warning message — no timeout at all is attempted (`if
user_spam_detected[user_id] == 1:` only sends), contradicting the claim's
"warning plus a short timeout" for `k = 1`. -/
theorem first_offense_no_timeout :
    (on_message initState susMsg spamEnv).1.user_spam_detected 42 = 1
    ∧ Effect.channelSend .firstOffenseWarning ∈ (on_message initState susMsg spamEnv).2
    ∧ (on_message initState susMsg spamEnv).2.filter isTimeoutEffect = [] := by
  refine ⟨by decide, by decide, by decide⟩

/-- C4 (amended): each confirmed-spam verdict increments the user's counter by
one, and the punishment applied for the resulting count `k` is
`punishment_for k`: a warning message (no timeout) when `k = 1`, and a
timeout of `10 * k` minutes for every `k ≥ 2`. -/
theorem spam_escalation (s : BotState) (m : Msg) (env : Env)
    (hb : m.author.isBot = false) (hx : env.heuristicRaises = false)
    (hc : check_if_possible_spam m = true)
    (hlen : ((s.user_spam_attempts m.author.id ++ [env.now]).filter
        (fun t => env.now - t < TIME_WINDOW)).length < MAX_SUS_MESSAGES)
    (hspam : (is_spam env.classifier).1 = true)
    (hdel : env.spamDelete = .ok) (hnot : env.spamNotify = .ok) :
    (on_message s m env).1.user_spam_detected m.author.id
      = s.user_spam_detected m.author.id + 1
    ∧ punishment_for (s.user_spam_detected m.author.id + 1) ∈ (on_message s m env).2
    ∧ punishment_for 1 = .channelSend .firstOffenseWarning
    ∧ (∀ k, 2 ≤ k → punishment_for k = .timeoutUser (10 * k)) := by
  have hlen2 := Nat.not_le.mpr hlen
  simp only [List.filter_append, List.length_append] at hlen2
  refine ⟨?_, ?_, by simp [punishment_for], fun k hk => ?_⟩
  · unfold on_message onMessageBody suspiciousWith apiPhase prunedOf heurLog bumpSent spamState
    simp [hb, hx, hc, hspam, hlen2, updAt_same]
  · unfold on_message onMessageBody suspiciousWith apiPhase prunedOf heurLog bumpSent
      spamState spamPunishEffects
    simp [hb, hx, hc, hspam, hdel, hnot, hlen2, updAt_same]
  · unfold punishment_for
    rw [if_neg (by omega)]

/-- Witness for C4 (amended): a first offense on the concrete scenario. -/
theorem spam_escalation_witness :
    (on_message initState susMsg spamEnv).1.user_spam_detected 42
      = initState.user_spam_detected 42 + 1
    ∧ punishment_for (initState.user_spam_detected 42 + 1)
        ∈ (on_message initState susMsg spamEnv).2 :=
  ⟨(spam_escalation initState susMsg spamEnv rfl rfl (by decide) (by decide) (by decide)
      rfl rfl).1,
   (spam_escalation initState susMsg spamEnv rfl rfl (by decide) (by decide) (by decide)
      rfl rfl).2.1⟩

/-- A user with four suspicious timestamps already inside the window, about
to trigger the rate limit. -/
def s8 : BotState := ⟨initMetrics, fun u => if u = 42 then [0, 0, 0, 0] else [], fun _ => 0⟩

/-- Environment where the rate-limit timeout raises `Forbidden` and the
classifier then answers clean. -/
def env8 : Env := ⟨false, .forbidden, .ok, .ok, .success (some "NOT_SPAM"), .ok, .ok, 0⟩

/-- Environment where the confirmed-spam delete raises `Forbidden`. -/
def fbEnv : Env := ⟨false, .ok, .ok, .ok, .success (some "SPAM"), .forbidden, .ok, 0⟩

/-- Counterexample for C8: with the rate limit triggered (5 timestamps in
window) and the timeout denied by permissions, the handler attempts no
channel-send fallback at all — the trace is exactly the failed timeout, a
metrics write and the classifier call — refuting "on every punishment path a
permission-denial leads to at least an attempted warning message". -/
theorem rate_limit_forbidden_no_fallback :
    env8.rlTimeout = .forbidden
    ∧ ((s8.user_spam_attempts 42 ++ [env8.now]).filter
        (fun t => env8.now - t < TIME_WINDOW)).length ≥ MAX_SUS_MESSAGES
    ∧ (on_message s8 susMsg env8).2
        = [.timeoutUser 10, .saveMetrics, .classifierCall]
    ∧ (on_message s8 susMsg env8).2.filter isSendEffect = [] := by
  refine ⟨rfl, by decide, by decide, by decide⟩

/-- C8 (amended): on the confirmed-spam punishment path a `Forbidden` failure
of the delete/notify actions does trigger the lower-privilege fallback send
and processing continues; but on the rate-limit punishment path a `Forbidden`
timeout failure is only logged — the message falls through to the classifier
stage with no warning send attempted by that handler. -/
theorem forbidden_fallback_paths :
    (∀ (s : BotState) (m : Msg) (env : Env),
      m.author.isBot = false → env.heuristicRaises = false →
      check_if_possible_spam m = true →
      ((s.user_spam_attempts m.author.id ++ [env.now]).filter
          (fun t => env.now - t < TIME_WINDOW)).length < MAX_SUS_MESSAGES →
      (is_spam env.classifier).1 = true →
      (env.spamDelete = .forbidden ∨ (env.spamDelete = .ok ∧ env.spamNotify = .forbidden)) →
      Effect.channelSend .flaggedFallback ∈ (on_message s m env).2)
    ∧ (∀ (s : BotState) (m : Msg) (env : Env),
      m.author.isBot = false → env.heuristicRaises = false →
      check_if_possible_spam m = true →
      ((s.user_spam_attempts m.author.id ++ [env.now]).filter
          (fun t => env.now - t < TIME_WINDOW)).length ≥ MAX_SUS_MESSAGES →
      env.rlTimeout = .forbidden →
      (is_spam env.classifier).1 = false →
      Effect.classifierCall ∈ (on_message s m env).2
      ∧ (on_message s m env).2.filter isSendEffect = []) := by
  constructor
  · intro s m env hb hx hc hlen hspam hfb
    have hlen2 := Nat.not_le.mpr hlen
    simp only [List.filter_append, List.length_append] at hlen2
    unfold on_message onMessageBody suspiciousWith apiPhase prunedOf heurLog
    rcases hfb with hdel | ⟨hdel, hnot⟩ <;>
      simp [hb, hx, hc, hspam, hlen2, spamPunishEffects, hdel, hnot]
  · intro s m env hb hx hc hlen hto hclean
    have hlen2 := hlen
    simp only [ge_iff_le, List.filter_append, List.length_append] at hlen2
    unfold on_message onMessageBody suspiciousWith apiPhase prunedOf heurLog ratePunishEffects
    simp [hb, hx, hc, hlen2, hto, hclean, isSendEffect]

/-- Witness for C8 (amended): both branches at concrete inputs — a denied
delete on the spam path does attempt the fallback; a denied timeout on the
rate-limit path reaches the classifier with no send in the whole trace. -/
theorem forbidden_fallback_paths_witness :
    Effect.channelSend .flaggedFallback ∈ (on_message initState susMsg fbEnv).2
    ∧ (Effect.classifierCall ∈ (on_message s8 susMsg env8).2
       ∧ (on_message s8 susMsg env8).2.filter isSendEffect = []) :=
  ⟨forbidden_fallback_paths.1 initState susMsg fbEnv rfl rfl (by decide) (by decide)
      (by decide) (Or.inl rfl),
   forbidden_fallback_paths.2 s8 susMsg env8 rfl rfl (by decide) (by decide) rfl (by decide)⟩

theorem susMsg_suspicious : check_if_possible_spam susMsg = true := by decide

theorem notspam_clean : (is_spam (ApiResult.success (some "NOT_SPAM"))).1 = false := by decide

theorem processAll_cons2 (s : BotState) (m : Msg) (env : Env) (evs : List (Msg × Env)) :
    processAll s ((m, env) :: evs) = processAll (on_message s m env).1 evs := rfl

theorem processAll_nil (s : BotState) : processAll s [] = s := rfl

/-- Pruning keeps a window all of whose entries are recent. -/
theorem filter_window_all {l : List Nat} {t : Nat}
    (h : ∀ x ∈ l, t - x < TIME_WINDOW) :
    l.filter (fun x => t - x < TIME_WINDOW) = l := by
  rw [List.filter_eq_self]
  intro a ha
  simpa using h a ha

theorem susMsg_id : susMsg.author.id = 42 := rfl

theorem susMsg_notBot : susMsg.author.isBot = false := rfl

/-- State shape after one below-threshold suspicious `susMsg` step under
`okEnv`: window replaced by the pruned list `lf`, `total_messages` and
`sent_to_api` up by one. -/
def susNext (s : BotState) (lf : List Nat) : BotState :=
  { metrics := { s.metrics with
      total_messages := s.metrics.total_messages + 1,
      sent_to_api := s.metrics.sent_to_api + 1 },
    user_spam_attempts := updAt s.user_spam_attempts 42 lf,
    user_spam_detected := s.user_spam_detected }

/-- State shape after an at-threshold suspicious `susMsg` step under `okEnv`:
window pruned to `lf` and then cleared by the punishment, `total_messages`
and `filtered_locally` up by one. -/
def rlNext (s : BotState) (lf : List Nat) : BotState :=
  { metrics := { s.metrics with
      total_messages := s.metrics.total_messages + 1,
      filtered_locally := s.metrics.filtered_locally + 1 },
    user_spam_attempts := updAt (updAt s.user_spam_attempts 42 lf) 42 [],
    user_spam_detected := s.user_spam_detected }

/-- One suspicious `susMsg` step under `okEnv` while the window stays below
the threshold: the window becomes the pruned list `lf`, `sent_to_api` and
`total_messages` rise by one, and the classifier is called. -/
theorem sus_okEnv_step (s : BotState) (t : Nat) (l lf : List Nat)
    (hatt : s.user_spam_attempts 42 = l)
    (hfil : (l ++ [t]).filter (fun x => t - x < TIME_WINDOW) = lf)
    (hlen : lf.length < MAX_SUS_MESSAGES) :
    (on_message s susMsg (okEnv t)).1 = susNext s lf
    ∧ (on_message s susMsg (okEnv t)).2 = [.saveMetrics, .classifierCall] := by
  have hfil2 := hfil
  simp only [List.filter_append] at hfil2
  have hlen2 := Nat.not_le.mpr hlen
  constructor <;>
  · unfold on_message onMessageBody suspiciousWith apiPhase prunedOf heurLog bumpSent
    simp [susNext, okEnv, susMsg_suspicious, susMsg_id, susMsg_notBot, notspam_clean, hatt,
      hfil2, hlen2]

/-- One suspicious `susMsg` step under `okEnv` at the threshold: the
rate-limit block runs and succeeds, the window is cleared,
`filtered_locally` rises by one, and no classifier call happens. -/
theorem rl_okEnv_step (s : BotState) (t : Nat) (l lf : List Nat)
    (hatt : s.user_spam_attempts 42 = l)
    (hfil : (l ++ [t]).filter (fun x => t - x < TIME_WINDOW) = lf)
    (hlen : lf.length ≥ MAX_SUS_MESSAGES) :
    (on_message s susMsg (okEnv t)).1 = rlNext s lf
    ∧ (on_message s susMsg (okEnv t)).2
      = [.timeoutUser TIMEOUT_DURATION_MIN, .channelSend .rateLimitNotice,
         .auditLog, .deleteMessage, .saveMetrics] := by
  have hfil2 := hfil
  simp only [List.filter_append] at hfil2
  have hlen2 := hlen
  simp only [ge_iff_le] at hlen2
  constructor <;>
  · unfold on_message onMessageBody suspiciousWith prunedOf heurLog ratePunishEffects
    simp [rlNext, okEnv, susMsg_suspicious, susMsg_id, susMsg_notBot, hatt, hfil2, hlen2]

/-- C5: a user sending five suspicious messages inside the 60-second window
is rate-limited exactly on the fifth: that message is punished locally with
no classifier call (`sent_to_api` unchanged, `filtered_locally` + 1), the
window is cleared by the punishment, and a sixth message sent 61+ seconds
after the first is evaluated against a clean window (count restarts at 1 and
goes to the classifier, not the rate limit). -/
theorem rate_limit_scenario (t1 t2 t3 t4 t5 t6 : Nat)
    (h12 : t1 ≤ t2) (h23 : t2 ≤ t3) (h34 : t3 ≤ t4) (h45 : t4 ≤ t5)
    (hwin : t5 - t1 < TIME_WINDOW) (h6 : t1 + 61 ≤ t6) :
    (processAll initState
        [(susMsg, okEnv t1), (susMsg, okEnv t2), (susMsg, okEnv t3), (susMsg, okEnv t4)]).user_spam_attempts 42
      = [t1, t2, t3, t4]
    ∧ (on_message (processAll initState
        [(susMsg, okEnv t1), (susMsg, okEnv t2), (susMsg, okEnv t3), (susMsg, okEnv t4)])
        susMsg (okEnv t5)).2
      = [.timeoutUser TIMEOUT_DURATION_MIN, .channelSend .rateLimitNotice,
         .auditLog, .deleteMessage, .saveMetrics]
    ∧ Effect.classifierCall ∉ (on_message (processAll initState
        [(susMsg, okEnv t1), (susMsg, okEnv t2), (susMsg, okEnv t3), (susMsg, okEnv t4)])
        susMsg (okEnv t5)).2
    ∧ (on_message (processAll initState
        [(susMsg, okEnv t1), (susMsg, okEnv t2), (susMsg, okEnv t3), (susMsg, okEnv t4)])
        susMsg (okEnv t5)).1.metrics.sent_to_api
      = (processAll initState
        [(susMsg, okEnv t1), (susMsg, okEnv t2), (susMsg, okEnv t3), (susMsg, okEnv t4)]).metrics.sent_to_api
    ∧ (on_message (processAll initState
        [(susMsg, okEnv t1), (susMsg, okEnv t2), (susMsg, okEnv t3), (susMsg, okEnv t4)])
        susMsg (okEnv t5)).1.metrics.filtered_locally
      = (processAll initState
        [(susMsg, okEnv t1), (susMsg, okEnv t2), (susMsg, okEnv t3), (susMsg, okEnv t4)]).metrics.filtered_locally + 1
    ∧ (on_message (processAll initState
        [(susMsg, okEnv t1), (susMsg, okEnv t2), (susMsg, okEnv t3), (susMsg, okEnv t4)])
        susMsg (okEnv t5)).1.user_spam_attempts 42 = []
    ∧ (on_message (on_message (processAll initState
        [(susMsg, okEnv t1), (susMsg, okEnv t2), (susMsg, okEnv t3), (susMsg, okEnv t4)])
        susMsg (okEnv t5)).1 susMsg (okEnv t6)).1.user_spam_attempts 42 = [t6]
    ∧ Effect.classifierCall ∈ (on_message (on_message (processAll initState
        [(susMsg, okEnv t1), (susMsg, okEnv t2), (susMsg, okEnv t3), (susMsg, okEnv t4)])
        susMsg (okEnv t5)).1 susMsg (okEnv t6)).2 := by
  have hT : TIME_WINDOW = 60 := rfl
  obtain ⟨e1s, e1t⟩ := sus_okEnv_step initState t1 [] [t1] rfl
    (by rw [List.nil_append]
        exact filter_window_all (by intro x hx; simp at hx; subst hx; rw [hT]; omega))
    (by norm_num [MAX_SUS_MESSAGES])
  rw [processAll_cons2, e1s]
  obtain ⟨e2s, e2t⟩ := sus_okEnv_step (susNext initState [t1]) t2 [t1] [t1, t2]
    (by simp [susNext, updAt_same])
    (filter_window_all (by intro x hx; simp at hx; rw [hT]; rcases hx with rfl | rfl <;> omega))
    (by norm_num [MAX_SUS_MESSAGES])
  rw [processAll_cons2, e2s]
  obtain ⟨e3s, e3t⟩ := sus_okEnv_step (susNext (susNext initState [t1]) [t1, t2]) t3
    [t1, t2] [t1, t2, t3]
    (by simp [susNext, updAt_same])
    (filter_window_all
      (by intro x hx; simp at hx; rw [hT]; rcases hx with rfl | rfl | rfl <;> omega))
    (by norm_num [MAX_SUS_MESSAGES])
  rw [processAll_cons2, e3s]
  obtain ⟨e4s, e4t⟩ := sus_okEnv_step
    (susNext (susNext (susNext initState [t1]) [t1, t2]) [t1, t2, t3]) t4
    [t1, t2, t3] [t1, t2, t3, t4]
    (by simp [susNext, updAt_same])
    (filter_window_all
      (by intro x hx; simp at hx; rw [hT]; rcases hx with rfl | rfl | rfl | rfl <;> omega))
    (by norm_num [MAX_SUS_MESSAGES])
  rw [processAll_cons2, e4s, processAll_nil]
  obtain ⟨e5s, e5t⟩ := rl_okEnv_step
    (susNext (susNext (susNext (susNext initState [t1]) [t1, t2]) [t1, t2, t3]) [t1, t2, t3, t4])
    t5 [t1, t2, t3, t4] [t1, t2, t3, t4, t5]
    (by simp [susNext, updAt_same])
    (filter_window_all
      (by intro x hx; simp at hx; rw [hT]; rcases hx with rfl | rfl | rfl | rfl | rfl <;> omega))
    (by norm_num [MAX_SUS_MESSAGES])
  rw [e5s, e5t]
  obtain ⟨e6s, e6t⟩ := sus_okEnv_step
    (rlNext (susNext (susNext (susNext (susNext initState [t1]) [t1, t2]) [t1, t2, t3])
      [t1, t2, t3, t4]) [t1, t2, t3, t4, t5]) t6 [] [t6]
    (by simp [rlNext, updAt_same])
    (by rw [List.nil_append]
        exact filter_window_all (by intro x hx; simp at hx; subst hx; rw [hT]; omega))
    (by norm_num [MAX_SUS_MESSAGES])
  rw [e6s, e6t]
  refine ⟨by simp [susNext, updAt_same], rfl, by decide, by simp [rlNext, susNext],
    by simp [rlNext, susNext], by simp [rlNext, updAt_same], by simp [susNext, updAt_same],
    by decide⟩

/-- Witness for C5: the scenario at concrete times 0, 10, 20, 30, 40 and 61
seconds. -/
theorem rate_limit_scenario_witness :
    (on_message (processAll initState
        [(susMsg, okEnv 0), (susMsg, okEnv 10), (susMsg, okEnv 20), (susMsg, okEnv 30)])
        susMsg (okEnv 40)).2
      = [.timeoutUser TIMEOUT_DURATION_MIN, .channelSend .rateLimitNotice,
         .auditLog, .deleteMessage, .saveMetrics]
    ∧ (on_message (processAll initState
        [(susMsg, okEnv 0), (susMsg, okEnv 10), (susMsg, okEnv 20), (susMsg, okEnv 30)])
        susMsg (okEnv 40)).1.user_spam_attempts 42 = [] :=
  ⟨(rate_limit_scenario 0 10 20 30 40 61 (by omega) (by omega) (by omega) (by omega)
      (by decide) (by omega)).2.1,
   (rate_limit_scenario 0 10 20 30 40 61 (by omega) (by omega) (by omega) (by omega)
      (by decide) (by omega)).2.2.2.2.2.1⟩

end SpamRemover
